import Mathlib

/-!
Shallow embedding of `onnx_parser/onnx_parser_7.x/ModelImporter.cpp` and
verification of the specification claims about it.

Conventions of the embedding:
* C++ `std::map` / `string_map` values are modelled as association lists
  (`List (key × value)`); `std::map` keeps its keys sorted while an
  association list keeps insertion order, which only affects iteration
  order over annotation maps, never lookups.
* TensorRT runtime objects (`nvinfer1::ITensor`, `nvinfer1::ILayer`,
  `nvinfer1::INetworkDefinition`) are modelled as records held in a store
  keyed by numeric ids, so that C++ pointer mutation becomes store update.
* Machine-external facts the source merely consumes (whether TensorRT
  classifies a tensor as a shape tensor; whether a layer kind supports
  shape-tensor outputs, `supportsShapeTensor`) are oracle parameters.
* Calibration-range values (C++ `float`) are modelled as `Int`: every use
  in the source is equality comparison and storage; the `std::isnan`
  sentinel check is modelled as always-false.
* Fallible C++ functions returning `Status` are modelled as returning the
  (possibly partially mutated) state together with `Option Status`
  (`none` = success), matching the fact that a C++ `ASSERT` early-return
  leaves already-performed mutations of the context in place.
-/

namespace Onnx2trt

/-- Error kinds of `nvonnxparser::ErrorCode` used in ModelImporter.cpp. -/
inductive ErrorCode where
  | kSUCCESS
  | kINTERNAL_ERROR
  | kMODEL_DESERIALIZE_FAILED
  | kINVALID_VALUE
  | kINVALID_GRAPH
  | kUNSUPPORTED_GRAPH
  | kUNSUPPORTED_NODE
deriving DecidableEq, Repr

/-- Status record (onnx2trt `Status`): error code, the node index attached by
`setNode` (−1 when the failure did not occur while importing a node), and the
`file` field. `ASSERT_INPUT` failures carry the offending input's name in
`file` (cf. the comment at ModelImporter.cpp line 349); for plain `ASSERT`
failures the source-location string is irrelevant to observable behaviour on
the modelled paths and is modelled as `""`. -/
structure Status where
  code : ErrorCode
  node : Int := -1
  file : String := ""
deriving DecidableEq, Repr

/-- Whether a status is an error (`Status::is_error`). -/
def Status.is_error (s : Status) : Bool := s.code != ErrorCode.kSUCCESS

/-- TensorRT element types used by ModelImporter.cpp. -/
inductive DataType where
  | kFLOAT
  | kHALF
  | kINT8
  | kINT32
  | kBOOL
deriving DecidableEq, Repr

/-- nvinfer1::TensorLocation. -/
inductive TensorLocation where
  | kDEVICE
  | kHOST
deriving DecidableEq, Repr

/-- Association-list lookup (models `std::map::find` / `count` + `at`). -/
def lookupAssoc {α : Type} [DecidableEq α] {β : Type} : List (α × β) → α → Option β
  | [], _ => none
  | (a, b) :: rest, k => if a = k then some b else lookupAssoc rest k

/-- Association-list overwrite-or-append (models `map[k] = v`). -/
def insertAssoc {α : Type} [DecidableEq α] {β : Type} : List (α × β) → α → β → List (α × β)
  | [], k, v => [(k, v)]
  | (a, b) :: rest, k, v => if a = k then (a, v) :: rest else (a, b) :: insertAssoc rest k v

/-- TensorOrWeights: the tagged union bound in the tensor registry. `null`
models both `TensorOrWeights{nullptr}` (the placeholder for an absent optional
input) and the default-constructed dummy used to reserve declared output
names; `tensor` holds a network tensor id, `weights` an abstract id of the
constant payload. -/
inductive TensorOrWeights where
  | null
  | tensor (tid : Nat)
  | weights (wid : Nat)
deriving DecidableEq, Repr

/-- Truthiness used at output registration (line 178):
`(output || output.is_weights())` — a null tensor handle is falsy and not a
weight, every real tensor or weight registers. -/
def twTruthy : TensorOrWeights → Bool
  | TensorOrWeights.null => false
  | TensorOrWeights.tensor _ => true
  | TensorOrWeights.weights _ => true

/-- Data of one `nvinfer1::ITensor` in the modelled network. -/
structure TrtTensorData where
  name : String := ""
  dtype : DataType := DataType.kFLOAT
  dims : List Int := []
  isShapeTensor : Bool := false
  location : Option TensorLocation := none
  dynRange : Option (Int × Int) := none
deriving DecidableEq, Repr

/-- Data of one `nvinfer1::ILayer` in the modelled network: tensor ids of its
inputs and outputs plus the precision / output-type annotations touched by
`removeShapeTensorCasts`. -/
structure Layer where
  name : String := ""
  inputs : List Nat := []
  outputs : List Nat := []
  precision : Option DataType := none
  outputType0 : Option DataType := none
deriving DecidableEq, Repr

/-- The modelled `nvinfer1::INetworkDefinition`: a tensor store keyed by id,
the ids of network inputs and of marked outputs, and the layer list. -/
structure Network where
  hasImplicitBatch : Bool := false
  store : List (Nat × TrtTensorData) := []
  nextTid : Nat := 0
  inputs : List Nat := []
  outputs : List Nat := []
  layers : List Layer := []
deriving DecidableEq, Repr

/-- Read a tensor record from the store (dereference of an ITensor pointer). -/
def getTensorD (nw : Network) (tid : Nat) : TrtTensorData :=
  (lookupAssoc nw.store tid).getD { }

/-- Update a tensor record in place (mutation through an ITensor pointer). -/
def updTensor (nw : Network) (tid : Nat) (f : TrtTensorData → TrtTensorData) : Network :=
  { nw with store := insertAssoc nw.store tid (f (getTensorD nw tid)) }

/-- ITensor::setName. -/
def setTensorName (nw : Network) (tid : Nat) (n : String) : Network :=
  updTensor nw tid (fun t => { t with name := n })

/-- ITensor::setType. -/
def setTensorType (nw : Network) (tid : Nat) (d : DataType) : Network :=
  updTensor nw tid (fun t => { t with dtype := d })

/-- ITensor::setLocation. -/
def setTensorLocation (nw : Network) (tid : Nat) (l : TensorLocation) : Network :=
  updTensor nw tid (fun t => { t with location := some l })

/-- ITensor::setDynamicRange. -/
def setTensorDynRange (nw : Network) (tid : Nat) (r : Int × Int) : Network :=
  updTensor nw tid (fun t => { t with dynRange := some r })

/-- Allocate a fresh tensor in the network store, returning its id. -/
def addTensor (nw : Network) (t : TrtTensorData) : Network × Nat :=
  ({ nw with store := insertAssoc nw.store nw.nextTid t, nextTid := nw.nextTid + 1 }, nw.nextTid)

/-- The importer context (`ImporterContext` / `IImporterContext`): the tensor
registry, the annotation maps, the loop-tensor map, the record of illegal
shape-tensor outputs, the network being built, and the user-supplied
input/output requests. -/
structure ImporterState where
  tensors : List (String × TensorOrWeights) := []
  tensorLocations : List (String × TensorLocation) := []
  tensorRangeMins : List (String × Int) := []
  tensorRangeMaxes : List (String × Int) := []
  layerPrecisions : List (String × DataType) := []
  loopTensors : List (String × String) := []
  unsupportedShapeTensors : List String := []
  network : Network := { }
  userInputs : List (String × Nat) := []
  userOutputs : List String := []
  opsets : List (String × Int) := []
deriving DecidableEq, Repr

/-- External facts consumed by the source: whether TensorRT classifies a
network input of a given name as a shape tensor (`ITensor::isShapeTensor`),
and `supportsShapeTensor(type, elementwiseOp, reduceOp)` — all three of its
arguments are derived from the layer, so it is modelled as a predicate on the
layer record. -/
structure Oracles where
  isShapeO : String → Bool
  sstO : Layer → Bool

/-- One ONNX node (`::onnx::NodeProto`): operator type, name, input and output
name lists, plus the typed views of the `trt_outputs_loc`,
`trt_outputs_range_min/max` and `trt_layer_precision` attributes that
`OnnxAttrs` extracts when deserializing a TensorRT-produced model. -/
structure Node where
  name : String := ""
  opType : String := ""
  input : List String := []
  output : List String := []
  attrLoc : List String := []
  attrRangeMin : List Int := []
  attrRangeMax : List Int := []
  attrPrecision : Option DataType := none
deriving DecidableEq, Repr

/-- One `::onnx::ValueInfoProto`: its name, the result of `convertDtype` on
its declared element type (`none` = unconvertible) and the result of
`convertOnnxDims` on its declared shape (that conversion is modelled as always
succeeding with the declared dimensions). -/
structure ValueInfo where
  name : String := ""
  vDtype : Option DataType := none
  vDims : List Int := []
deriving DecidableEq, Repr

/-- One graph initializer (`::onnx::TensorProto`) after `convertOnnxWeights`:
`none` payload models a failing conversion. -/
structure InitTensor where
  name : String := ""
  w : Option Nat := none
deriving DecidableEq, Repr

/-- `::onnx::GraphProto`. -/
structure GraphProto where
  node : List Node := []
  input : List ValueInfo := []
  output : List ValueInfo := []
  inits : List InitTensor := []
deriving DecidableEq, Repr

/-- `::onnx::ModelProto`. Serialized buffers are modelled as the parsed
message itself, protobuf deserialization being external. -/
structure ModelProto where
  graph : GraphProto := { }
  producerName : String := ""
  opsetImport : List (String × Int) := []
deriving DecidableEq, Repr

/-- One `onnxTensorDescriptorV1` user weight descriptor after
`convertWeightDescriptor` (`none` payload models a failing conversion). -/
structure WeightDesc where
  name : String := ""
  memCpu : Bool := true
  w : Option Nat := none
deriving DecidableEq, Repr

/-- A node converter (`NodeImporter`): mutates the context and either
produces the node's output values or fails. The registered converters,
including `FallbackPluginImporter`, are external code and enter the embedding
as parameters. -/
def Converter : Type :=
  ImporterState → Node → List TensorOrWeights → ImporterState × Except Status (List TensorOrWeights)

/-- The `ModelImporter` object state: its context, the accumulated `_errors`
and `_onnx_models`, `_current_node`, and the per-input dimension overrides
`_input_dims`. -/
structure MIState where
  ctx : ImporterState := { }
  errors : List Status := []
  onnxModels : List ModelProto := []
  currentNode : Int := -1
  inputDims : List (List Int) := []
deriving Repr

/-- SubGraphCollection_t: list of (node-index list, supported flag). -/
abbrev SubGraphCollection := List (List Nat × Bool)

/-- Modelled from the spec: `IImporterContext::registerTensor` is declared in
the headers but its definition is not part of this source. Per spec §4.1 a
registration binds a fresh name, a reserved dummy placeholder (the
default-constructed `TensorOrWeights` used to reserve declared output names)
is replaced when the name is naturally produced later, and rebinding an
identical value succeeds idempotently. Rebinding a different non-placeholder
value is specified as an error, but every call site in ModelImporter.cpp
discards the registration result, so that case is modelled as keeping the
first binding. -/
def registerTensor (m : List (String × TensorOrWeights)) (name : String)
    (v : TensorOrWeights) : List (String × TensorOrWeights) :=
  match lookupAssoc m name with
  | none => insertAssoc m name v
  | some TensorOrWeights.null => insertAssoc m name v
  | some _ => m

/-- Names produced as outputs by any node of the list (used to decide which
input names are graph-level inputs / weights, which are available before
scheduling). -/
def allNodeOutputs (nodes : List Node) : List String :=
  nodes.foldl (fun acc n => acc ++ n.output) []

/-- A node is ready once each of its non-empty inputs is either already
produced or not produced by any node at all (initializers and graph inputs
are available before scheduling begins). -/
def nodeReady (produced : List String) (allOuts : List String) (n : Node) : Bool :=
  n.input.all (fun i => i = "" || produced.contains i || !(allOuts.contains i))

/-- Fuel-indexed worker for `toposort`: repeatedly emit the first remaining
node index whose inputs are all available. -/
def toposortAux (nodes : List Node) (allOuts : List String) :
    Nat → List Nat → List String → List Nat → Option (List Nat)
  | 0, remaining, _, acc => if remaining.isEmpty then some acc.reverse else none
  | fuel + 1, remaining, produced, acc =>
    match remaining.find? (fun i => nodeReady produced allOuts (nodes.getD i { })) with
    | none => if remaining.isEmpty then some acc.reverse else none
    | some i =>
      toposortAux nodes allOuts fuel (remaining.erase i)
        (produced ++ (nodes.getD i { }).output) (i :: acc)

/-- Modelled from the spec: the topological-sort primitive (`toposort.hpp`)
is an external collaborator (spec §4.3 Scheduler): it returns a permutation of
the node indices in which every node follows all producers of its non-empty
inputs, and fails on a cyclic graph. -/
def toposort (nodes : List Node) : Option (List Nat) :=
  toposortAux nodes (allNodeOutputs nodes) nodes.length (List.range nodes.length) [] []

/-- Shallow embedding of `setTensorLocations` (ModelImporter.cpp lines 40-62):
location string parsing. -/
def locationOf (location : String) : TensorLocation :=
  if location == "device" then TensorLocation.kDEVICE else TensorLocation.kHOST

/-- Loop of `setTensorLocations` over the zipped (tensor name, location)
pairs, threading the mutated map also through the error exit. -/
def setTensorLocationsLoop :
    List (String × TensorLocation) → List (String × String) →
    List (String × TensorLocation) × Option Status
  | map, [] => (map, none)
  | map, (tensor, location) :: rest =>
    let loc := locationOf location
    match lookupAssoc map tensor with
    | some prev =>
      if prev = loc then setTensorLocationsLoop map rest
      else (map, some { code := ErrorCode.kINVALID_GRAPH })
    | none => setTensorLocationsLoop (insertAssoc map tensor loc) rest

/-- `setTensorLocations` (lines 40-62): requires at least as many tensor
names as locations, then records each location, failing on a conflicting
re-assertion. -/
def setTensorLocations (tensors locations : List String)
    (map : List (String × TensorLocation)) :
    List (String × TensorLocation) × Option Status :=
  if locations.length ≤ tensors.length then
    setTensorLocationsLoop map ((tensors.take locations.length).zip locations)
  else (map, some { code := ErrorCode.kINVALID_GRAPH })

/-- Loop of `setStringMap` over the zipped (name, datum) pairs. -/
def setStringMapLoop {T : Type} [DecidableEq T] :
    List (String × T) → List (String × T) → List (String × T) × Option Status
  | map, [] => (map, none)
  | map, (name, dataName) :: rest =>
    match lookupAssoc map name with
    | some prev =>
      if prev = dataName then setStringMapLoop map rest
      else (map, some { code := ErrorCode.kINVALID_GRAPH })
    | none => setStringMapLoop (insertAssoc map name dataName) rest

/-- `setStringMap` (lines 64-83): generic annotation recording with the
conflicting-re-assertion check. -/
def setStringMap {T : Type} [DecidableEq T] (tensors : List String) (data : List T)
    (map : List (String × T)) : List (String × T) × Option Status :=
  if data.length ≤ tensors.length then
    setStringMapLoop map ((tensors.take data.length).zip data)
  else (map, some { code := ErrorCode.kINVALID_GRAPH })

/-- Input assembly of the parseGraph node loop (lines 110-128): inputs are
resolved in declared order; an empty name yields the explicit null
placeholder without a lookup; a non-empty name absent from the tensor
registry fails with kINVALID_GRAPH. -/
def resolveNodeInputs (tensors : List (String × TensorOrWeights)) :
    List String → Except Status (List TensorOrWeights)
  | [] => Except.ok []
  | inputName :: rest =>
    if inputName = "" then
      (resolveNodeInputs tensors rest).map (fun vals => TensorOrWeights.null :: vals)
    else
      match lookupAssoc tensors inputName with
      | some v => (resolveNodeInputs tensors rest).map (fun vals => v :: vals)
      | none => Except.error { code := ErrorCode.kINVALID_GRAPH }

/-- Converter dispatch of the parseGraph node loop (lines 131-141): exact
operator-type match first, otherwise the `FallbackPluginImporter` entry
(`none` only when even the fallback entry is missing, where the C++ `at`
would throw). -/
def dispatchImporter (opImporters : List (String × Converter)) (opType : String) :
    Option Converter :=
  match lookupAssoc opImporters opType with
  | some f => some f
  | none => lookupAssoc opImporters "FallbackPluginImporter"

/-- Annotation merging for nodes of a TensorRT-produced model
(lines 146-166). -/
def applyNodeAnnotations (ctx : ImporterState) (node : Node) :
    ImporterState × Option Status :=
  let r1 := setTensorLocations node.output node.attrLoc ctx.tensorLocations
  let ctx := { ctx with tensorLocations := r1.1 }
  match r1.2 with
  | some s => (ctx, some s)
  | none =>
    let r2 := setStringMap node.output node.attrRangeMin ctx.tensorRangeMins
    let ctx := { ctx with tensorRangeMins := r2.1 }
    match r2.2 with
    | some s => (ctx, some s)
    | none =>
      let r3 := setStringMap node.output node.attrRangeMax ctx.tensorRangeMaxes
      let ctx := { ctx with tensorRangeMaxes := r3.1 }
      match r3.2 with
      | some s => (ctx, some s)
      | none =>
        match node.attrPrecision with
        | none => (ctx, none)
        | some p =>
          let r4 := setStringMap [node.name] [p] ctx.layerPrecisions
          ({ ctx with layerPrecisions := r4.1 }, r4.2)

/-- Output registration of the parseGraph node loop (lines 169-182): each
declared output name is paired with the converter's produced value
(`outputs.at(i)` throwing on a short list is modelled as an internal error);
truthy values with a non-empty name are registered, others ignored. -/
def registerNodeOutputs :
    ImporterState → List String → List TensorOrWeights → ImporterState × Option Status
  | ctx, [], _ => (ctx, none)
  | ctx, _ :: _, [] => (ctx, some { code := ErrorCode.kINTERNAL_ERROR })
  | ctx, outputName :: ns, output :: os =>
    let ctx :=
      if twTruthy output && !(outputName = "") then
        { ctx with tensors := registerTensor ctx.tensors outputName output }
      else ctx
    registerNodeOutputs ctx ns os

/-- Body of the parseGraph node loop (lines 100-184) for one node. -/
def parseNode (opImporters : List (String × Converter)) (ctx : ImporterState)
    (node : Node) (deserializingINetwork : Bool) : ImporterState × Option Status :=
  match resolveNodeInputs ctx.tensors node.input with
  | Except.error s => (ctx, some s)
  | Except.ok nodeInputs =>
    match dispatchImporter opImporters node.opType with
    | none => (ctx, some { code := ErrorCode.kINTERNAL_ERROR })
    | some importFunc =>
      match importFunc ctx node nodeInputs with
      | (ctx2, Except.error s) => (ctx2, some s)
      | (ctx2, Except.ok outputs) =>
        match (if deserializingINetwork then applyNodeAnnotations ctx2 node
               else (ctx2, none)) with
        | (ctx3, some s) => (ctx3, some s)
        | (ctx3, none) => registerNodeOutputs ctx3 node.output outputs

/-- Node loop of parseGraph over the topological order, tracking
`*currentNode` (the index of the node being parsed when a failure occurs). -/
def parseGraphNodes (opImporters : List (String × Converter)) (nodes : List Node)
    (deserializingINetwork : Bool) :
    ImporterState → List Nat → Int → ImporterState × Int × Option Status
  | ctx, [], cur => (ctx, cur, none)
  | ctx, nodeIndex :: rest, _ =>
    match parseNode opImporters ctx (nodes.getD nodeIndex { }) deserializingINetwork with
    | (ctx2, some s) => (ctx2, (nodeIndex : Int), some s)
    | (ctx2, none) =>
      parseGraphNodes opImporters nodes deserializingINetwork ctx2 rest (nodeIndex : Int)

/-- Initializer import of parseGraph (lines 88-94): each initializer is
converted (failure = kUNSUPPORTED_NODE) and registered as constant weights. -/
def importInits : ImporterState → List InitTensor → ImporterState × Option Status
  | ctx, [] => (ctx, none)
  | ctx, init :: rest =>
    match init.w with
    | none => (ctx, some { code := ErrorCode.kUNSUPPORTED_NODE })
    | some wid =>
      importInits
        { ctx with tensors := registerTensor ctx.tensors init.name (TensorOrWeights.weights wid) }
        rest

/-- `parseGraph` (lines 85-186): import initializers, topologically sort the
nodes (kINVALID_GRAPH on a cycle), then run the node loop. -/
def parseGraph (opImporters : List (String × Converter)) (ctx : ImporterState)
    (graph : GraphProto) (deserializingINetwork : Bool) (cur : Int) :
    ImporterState × Int × Option Status :=
  match importInits ctx graph.inits with
  | (ctx2, some s) => (ctx2, cur, some s)
  | (ctx2, none) =>
    match toposort graph.node with
    | none => (ctx2, cur, some { code := ErrorCode.kINVALID_GRAPH })
    | some topoOrder => parseGraphNodes opImporters graph.node deserializingINetwork ctx2 topoOrder cur

/-- Modelled from the spec: `convertToTensor` (onnx2trt_utils, definition not
part of this source) returns the underlying tensor of a tensor-valued binding
and materialises a constant-weight binding as the output of a constant layer;
the empty-placeholder case is unreachable on the modelled paths and also
yields a fresh tensor. -/
def convertToTensor (ctx : ImporterState) : TensorOrWeights → ImporterState × Nat
  | TensorOrWeights.tensor tid => (ctx, tid)
  | _ =>
    let p := addTensor ctx.network { }
    let nw := { p.1 with layers := p.1.layers ++ [{ name := "constant", outputs := [p.2] }] }
    ({ ctx with network := nw }, p.2)

/-- Modelled from the spec: `identity` (onnx2trt_utils, definition not part of
this source) synthesizes a pass-through copy layer whose output is a fresh
tensor with the same element type and dimensions as its input. -/
def identityLayer (ctx : ImporterState) (tid : Nat) : ImporterState × Nat :=
  let td := getTensorD ctx.network tid
  let p := addTensor ctx.network
    { name := "", dtype := td.dtype, dims := td.dims, isShapeTensor := td.isShapeTensor }
  let nw := { p.1 with layers := p.1.layers ++ [{ name := "identity", inputs := [tid], outputs := [p.2] }] }
  ({ ctx with network := nw }, p.2)

/-- The `trt_dims.d[0] = -1` write of importInput (line 211): the first
effective dimension becomes dynamic; for a rank-0 shape the write lands
outside the effective dimensions and the shape is unchanged. -/
def setFirstDimDynamic : List Int → List Int
  | [] => []
  | _ :: t => (-1 : Int) :: t

/-- network()->addInput (line 216): a fresh network input tensor; whether
TensorRT classifies it as a shape tensor comes from the oracle. -/
def addNetworkInput (o : Oracles) (ctx : ImporterState) (name : String)
    (dt : DataType) (dims : List Int) : ImporterState × Except Status Nat :=
  let p := addTensor ctx.network
    { name := name, dtype := dt, dims := dims, isShapeTensor := o.isShapeO name }
  ({ ctx with network := { p.1 with inputs := p.1.inputs ++ [p.2] } }, Except.ok p.2)

/-- `importInput` (lines 188-219): dtype conversion, user-input override
(dimensions intentionally unchecked), per-input dimension override with rank
check, otherwise the declared shape with a dynamic first dimension. Failures
carry the input's name in `file` (ASSERT_INPUT). -/
def importInput (o : Oracles) (ctx : ImporterState) (input : ValueInfo)
    (dims_setup : Option (List Int)) : ImporterState × Except Status Nat :=
  match input.vDtype with
  | none => (ctx, Except.error { code := ErrorCode.kUNSUPPORTED_NODE, file := input.name })
  | some trtDtype =>
    let trt_dims := input.vDims
    match lookupAssoc ctx.userInputs input.name with
    | some tid => (ctx, Except.ok tid)
    | none =>
      match dims_setup with
      | some ds =>
        if trt_dims.length = ds.length then addNetworkInput o ctx input.name trtDtype ds
        else (ctx, Except.error { code := ErrorCode.kINVALID_VALUE, file := input.name })
      | none => addNetworkInput o ctx input.name trtDtype (setFirstDimDynamic trt_dims)

/-- Weight-descriptor map construction (lines 228-234) with the emplace
uniqueness check. -/
def buildWeightMapLoop :
    List (String × WeightDesc) → List WeightDesc → Option (List (String × WeightDesc))
  | acc, [] => some acc
  | acc, d :: rest =>
    if (lookupAssoc acc d.name).isSome then none
    else buildWeightMapLoop (acc ++ [(d.name, d)]) rest

/-- Input loop of `importInputs` (lines 243-271): user-weight bindings are
registered as weights; initializers are skipped; remaining graph inputs go
through importInput, consuming the per-input dimension overrides in order. -/
def importInputsLoop (o : Oracles) (weightMap : List (String × WeightDesc))
    (initNames : List String) (input_dims : List (List Int)) :
    ImporterState → List ValueInfo → Nat → ImporterState × Option Status
  | ctx, [], _ => (ctx, none)
  | ctx, input :: rest, index_input =>
    match lookupAssoc weightMap input.name with
    | some desc =>
      if !desc.memCpu then (ctx, some { code := ErrorCode.kINVALID_VALUE })
      else
        match desc.w with
        | none => (ctx, some { code := ErrorCode.kUNSUPPORTED_NODE })
        | some wid =>
          importInputsLoop o weightMap initNames input_dims
            { ctx with tensors := registerTensor ctx.tensors input.name (TensorOrWeights.weights wid) }
            rest index_input
    | none =>
      if initNames.contains input.name then
        importInputsLoop o weightMap initNames input_dims ctx rest index_input
      else
        match importInput o ctx input (input_dims.get? index_input) with
        | (ctx2, Except.error s) => (ctx2, some s)
        | (ctx2, Except.ok tid) =>
          importInputsLoop o weightMap initNames input_dims
            { ctx2 with tensors := registerTensor ctx2.tensors input.name (TensorOrWeights.tensor tid) }
            rest (index_input + 1)

/-- `importInputs` (lines 221-274). -/
def importInputs (o : Oracles) (ctx : ImporterState) (graph : GraphProto)
    (input_dims : List (List Int)) (wds : List WeightDesc) : ImporterState × Option Status :=
  match buildWeightMapLoop [] wds with
  | none => (ctx, some { code := ErrorCode.kINVALID_VALUE })
  | some weightMap =>
    importInputsLoop o weightMap (graph.inits.map InitTensor.name) input_dims ctx graph.input 0

/-- Body of the output-marking loop of importModel (lines 548-581) for one
declared graph output: require the name bound, convert to a tensor, apply the
declared name, insert a pass-through copy when the tensor is a network input,
then (unless user-requested) mark it as a network output and apply the
declared element type, rejecting an INT32 tensor whose declared type is not
INT32. -/
def markDeclaredOutput (ctx : ImporterState) (output : ValueInfo) :
    ImporterState × Option Status :=
  match lookupAssoc ctx.tensors output.name with
  | none => (ctx, some { code := ErrorCode.kINVALID_GRAPH })
  | some tw =>
    let p := convertToTensor ctx tw
    let ctx := { p.1 with network := setTensorName p.1.network p.2 output.name }
    let p2 :=
      if ctx.network.inputs.contains p.2 then
        let ctxr := { ctx with network := setTensorName ctx.network p.2 (String.append "__" output.name) }
        let q := identityLayer ctxr p.2
        ({ q.1 with network := setTensorName q.1.network q.2 output.name }, q.2)
      else (ctx, p.2)
    let ctx := p2.1
    let tid := p2.2
    if ctx.userOutputs.contains output.name then (ctx, none)
    else
      let ctx := { ctx with network := { ctx.network with outputs := ctx.network.outputs ++ [tid] } }
      match output.vDtype with
      | none => (ctx, some { code := ErrorCode.kUNSUPPORTED_NODE })
      | some output_trt_dtype =>
        if (getTensorD ctx.network tid).dtype = DataType.kINT32 ∧
            ¬output_trt_dtype = DataType.kINT32 then
          (ctx, some { code := ErrorCode.kUNSUPPORTED_NODE })
        else ({ ctx with network := setTensorType ctx.network tid output_trt_dtype }, none)

/-- Output-marking loop of importModel (lines 548-581). -/
def markOutputs : ImporterState → List ValueInfo → ImporterState × Option Status
  | ctx, [] => (ctx, none)
  | ctx, output :: rest =>
    match markDeclaredOutput ctx output with
    | (ctx2, some s) => (ctx2, some s)
    | (ctx2, none) => markOutputs ctx2 rest

/-- User-requested output resolution (lines 583-591): each user output name
must be bound to a tensor value (a weight binding fails). The out-parameter
write has no modelled effect. -/
def checkUserOutputs (ctx : ImporterState) : List String → Option Status
  | [] => none
  | n :: rest =>
    match lookupAssoc ctx.tensors n with
    | none => some { code := ErrorCode.kINVALID_VALUE }
    | some (TensorOrWeights.weights _) => some { code := ErrorCode.kINVALID_VALUE }
    | some _ => checkUserOutputs ctx rest

/-- Name-to-tensor map over network inputs, outputs and layer inputs/outputs
(lines 595-634). -/
def collectNetworkTensors (nw : Network) : List (String × Nat) :=
  let m := nw.inputs.foldl (fun m tid => insertAssoc m (getTensorD nw tid).name tid) []
  let m := nw.outputs.foldl (fun m tid => insertAssoc m (getTensorD nw tid).name tid) m
  nw.layers.foldl (fun m layer =>
    let m := layer.inputs.foldl (fun m tid => insertAssoc m (getTensorD nw tid).name tid) m
    layer.outputs.foldl (fun m tid => insertAssoc m (getTensorD nw tid).name tid) m) m

/-- Name-to-layer-index map (lines 614-634). -/
def collectNetworkLayers (nw : Network) : List (String × Nat) :=
  (nw.layers.enum).foldl (fun m li => insertAssoc m li.2.name li.1) []

/-- Set a layer's precision field in place (ILayer::setPrecision). -/
def setLayerPrecisionAt (nw : Network) (i : Nat) (p : DataType) : Network :=
  { nw with layers := nw.layers.set i (let l := nw.layers.getD i { }; { l with precision := some p }) }

/-- Location application loop (lines 637-641). -/
def applyLocationsLoop :
    Network → List (String × Nat) → List (String × TensorLocation) → Network × Option Status
  | nw, _, [] => (nw, none)
  | nw, tmap, (name, loc) :: rest =>
    match lookupAssoc tmap name with
    | none => (nw, some { code := ErrorCode.kINVALID_GRAPH })
    | some tid => applyLocationsLoop (setTensorLocation nw tid loc) tmap rest

/-- Dynamic-range application loop (lines 643-651). The `std::isnan` sentinel
on the min value is modelled as always-false; `tensorRangeMaxes().at(name)`
throwing on an absent key is modelled with default 0 (mins and maxes are
recorded pairwise on the modelled paths). -/
def applyRangesLoop (maxes : List (String × Int)) :
    Network → List (String × Nat) → List (String × Int) → Network × Option Status
  | nw, _, [] => (nw, none)
  | nw, tmap, (name, mn) :: rest =>
    match lookupAssoc tmap name with
    | none => (nw, some { code := ErrorCode.kINVALID_GRAPH })
    | some tid =>
      applyRangesLoop maxes (setTensorDynRange nw tid (mn, (lookupAssoc maxes name).getD 0)) tmap rest

/-- Precision application loop (lines 653-657). -/
def applyPrecisionsLoop :
    Network → List (String × Nat) → List (String × DataType) → Network × Option Status
  | nw, _, [] => (nw, none)
  | nw, lmap, (name, p) :: rest =>
    match lookupAssoc lmap name with
    | none => (nw, some { code := ErrorCode.kINVALID_GRAPH })
    | some li => applyPrecisionsLoop (setLayerPrecisionAt nw li p) lmap rest

/-- Annotation application for TensorRT-produced models (lines 593-658). -/
def applyDeserializedAnnotations (ctx : ImporterState) : ImporterState × Option Status :=
  let tmap := collectNetworkTensors ctx.network
  let lmap := collectNetworkLayers ctx.network
  let r1 := applyLocationsLoop ctx.network tmap ctx.tensorLocations
  match r1.2 with
  | some s => ({ ctx with network := r1.1 }, some s)
  | none =>
    let r2 := applyRangesLoop ctx.tensorRangeMaxes r1.1 tmap ctx.tensorRangeMins
    match r2.2 with
    | some s => ({ ctx with network := r2.1 }, some s)
    | none =>
      let r3 := applyPrecisionsLoop r2.1 lmap ctx.layerPrecisions
      ({ ctx with network := r3.1 }, r3.2)

/-- Membership-preserving insertion into the `std::set` of names. -/
def insertUnique (l : List String) (n : String) : List String :=
  if l.contains n then l else l ++ [n]

/-- `removeShapeTensorCasts` (lines 478-512): for every layer whose first
output is a shape tensor, the precision and output type are forced to the
canonical shape-tensor type (BOOL stays BOOL, everything else becomes INT32),
the tensor's type is adjusted when necessary, and when the layer kind does not
support shape-tensor outputs (`supportsShapeTensor`, an external predicate on
the layer) the output tensor's NAME is recorded in
`unsupportedShapeTensors` for supportsModel. -/
def removeShapeTensorCasts (o : Oracles) (ctx : ImporterState) : ImporterState :=
  (List.range ctx.network.layers.length).foldl (fun ctx i =>
    let layer := ctx.network.layers.getD i { }
    match layer.outputs.head? with
    | none => ctx
    | some tid0 =>
      let t := getTensorD ctx.network tid0
      if t.isShapeTensor then
        let shapeTensorType := if t.dtype = DataType.kBOOL then DataType.kBOOL else DataType.kINT32
        let fixedLayer :=
          { layer with precision := some shapeTensorType, outputType0 := some shapeTensorType }
        let nw := { ctx.network with layers := ctx.network.layers.set i fixedLayer }
        let nw := if ¬t.dtype = shapeTensorType then setTensorType nw tid0 shapeTensorType else nw
        let ctx := { ctx with network := nw }
        if o.sstO layer then ctx
        else { ctx with unsupportedShapeTensors := insertUnique ctx.unsupportedShapeTensors t.name }
      else ctx) ctx

/-- `importModel` (lines 514-662). Returns the mutated context, the final
`_current_node` value, and the failure status if any. The plugin-registry
initialization call has no modelled state. -/
def importModel (opImporters : List (String × Converter)) (o : Oracles)
    (ctx : ImporterState) (input_dims : List (List Int)) (wds : List WeightDesc)
    (model : ModelProto) : ImporterState × Int × Option Status :=
  if ctx.network.hasImplicitBatch then (ctx, -1, some { code := ErrorCode.kINVALID_VALUE })
  else
    let ctx := { ctx with opsets := model.opsetImport }
    let ctx := model.graph.output.foldl
      (fun c output => { c with tensors := registerTensor c.tensors output.name TensorOrWeights.null })
      ctx
    match importInputs o ctx model.graph input_dims wds with
    | (ctx2, some s) => (ctx2, -1, some s)
    | (ctx2, none) =>
      match parseGraph opImporters ctx2 model.graph (model.producerName == "TensorRT") (-1) with
      | (ctx3, cur, some s) => (ctx3, cur, some s)
      | (ctx3, _, none) =>
        match markOutputs ctx3 model.graph.output with
        | (ctx4, some s) => (ctx4, -1, some s)
        | (ctx4, none) =>
          match checkUserOutputs ctx4 ctx4.userOutputs with
          | some s => (ctx4, -1, some s)
          | none =>
            match (if model.producerName == "TensorRT" then applyDeserializedAnnotations ctx4
                   else (ctx4, none)) with
            | (ctx5, some s) => (ctx5, -1, some s)
            | (ctx5, none) => (removeShapeTensorCasts o ctx5, -1, none)

/-- `deserialize_onnx_model` (lines 276-292): protobuf parsing is external,
so the serialized buffer is modelled as the parsed message itself and
deserialization always succeeds. -/
def deserialize_onnx_model (model : ModelProto) : Status × ModelProto :=
  ({ code := ErrorCode.kSUCCESS }, model)

/-- `parseWithWeightDescriptors` (lines 446-471): stores a copy of the model,
runs importModel on the importer's own context, and on failure tags the
status with `_current_node` and appends it to `_errors`. -/
def parseWithWeightDescriptors (opImporters : List (String × Converter)) (o : Oracles)
    (mi : MIState) (model : ModelProto) (wds : List WeightDesc) : MIState × Bool :=
  let mi := { mi with currentNode := -1, onnxModels := mi.onnxModels ++ [model] }
  let d := deserialize_onnx_model model
  if d.1.is_error then ({ mi with errors := mi.errors ++ [d.1] }, false)
  else
    let r := importModel opImporters o mi.ctx mi.inputDims wds d.2
    match r.2.2 with
    | some s =>
      ({ mi with ctx := r.1, currentNode := r.2.1, errors := mi.errors ++ [{ s with node := r.2.1 }] },
        false)
    | none => ({ mi with ctx := r.1, currentNode := r.2.1 }, true)

/-- `parse` (lines 473-476). -/
def parse (opImporters : List (String × Converter)) (o : Oracles) (mi : MIState)
    (model : ModelProto) : MIState × Bool :=
  parseWithWeightDescriptors opImporters o mi model []

/-- `supportsOperator` (lines 441-444). -/
def supportsOperator (opImporters : List (String × Converter)) (op_name : String) : Bool :=
  (lookupAssoc opImporters op_name).isSome

/-- The checkForInput lambda of supportsModel (lines 356-365). The C++ reads
`ctx->loopTensors()[input_node]`, where `std::map::operator[]`
default-constructs an empty string for an absent key; this is modelled as a
lookup with default `""`. -/
def checkForInput (ctx : ImporterState) (input_node : String) (node : Node) : Bool :=
  node.input.any (fun input =>
    input_node == input || (lookupAssoc ctx.loopTensors input_node).getD "" == input)

/-- The checkShapeTensorType lambda of supportsModel (lines 367-387): some
network input is a shape tensor whose type is FLOAT (or the node is a Loop or
Scan) and is among the node's inputs. -/
def checkShapeTensorType (ctx : ImporterState) (node : Node) : Bool :=
  ctx.network.inputs.any (fun tid =>
    let input := getTensorD ctx.network tid
    input.isShapeTensor &&
      ((input.dtype == DataType.kFLOAT || node.opType == "Loop" || node.opType == "Scan") &&
        node.input.any (fun i => i == input.name)))

/-- Error scan of supportsModel (lines 336-353): the last error tagged with a
node index gives error_node, the last error tagged -1 arose while importing a
graph input and its `file` field carries that input's name. -/
def scanErrors (errors : List Status) : Int × String :=
  errors.foldl
    (fun acc error => if ¬error.node = -1 then (error.node, acc.2) else (acc.1, error.file))
    (-1, "")

/-- The (error_node, input_node) pair supportsModel partitions with: when the
trial parse succeeded the error scan is skipped entirely (lines 334-354). -/
def analysisFailureInfo (parsed : Bool) (errors : List Status) : Int × String :=
  if parsed then (-1, "") else scanErrors errors

/-- Support decision for one node (lines 401-412): registered importer, not
connected to the failing graph input, not connected to an unsupported shape
tensor input, node name not recorded as an illegal shape-tensor output, and
not the node the trial parse failed on. -/
def supportedNodeDecision (opImporters : List (String × Converter)) (ctx : ImporterState)
    (error_node : Int) (input_node : String) (nodes : List Node) (node_idx : Nat) : Bool :=
  let node := nodes.getD node_idx { }
  supportsOperator opImporters node.opType
    && !(if input_node = "" then false else checkForInput ctx input_node node)
    && !(checkShapeTensorType ctx node)
    && !(ctx.unsupportedShapeTensors.contains node.name)
    && !((node_idx : Int) == error_node)

/-- Mutable loop state of the partition loop (lines 389-431). -/
structure PartState where
  coll : SubGraphCollection
  newSubGraph : Bool
  allSupported : Bool
deriving DecidableEq, Repr

/-- Append a node index to the last segment (`back().first.emplace_back`).
The empty-collection case is unreachable (`back()` on an empty vector is
undefined behaviour in C++). -/
def appendToLast : SubGraphCollection → Nat → SubGraphCollection
  | [], _ => []
  | [(l, b)], node_idx => [(l ++ [node_idx], b)]
  | s :: rest, node_idx => s :: appendToLast rest node_idx

/-- One iteration of the partition loop (lines 398-431). -/
def partitionStep (dec : Nat → Bool) (ps : PartState) (node_idx : Nat) : PartState :=
  if dec node_idx then
    let coll := if ps.newSubGraph then ps.coll ++ [([], false)] else ps.coll
    { coll := appendToLast coll node_idx, newSubGraph := false, allSupported := ps.allSupported }
  else { coll := ps.coll, newSubGraph := true, allSupported := false }

/-- Mark the last subgraph supported (`sub_graph_collection.back().second =
true`, line 436). The empty case is C++ undefined behaviour and unreachable
whenever the marking is performed on the modelled paths. -/
def setBackTrue : SubGraphCollection → SubGraphCollection
  | [] => []
  | [(l, _)] => [(l, true)]
  | s :: rest => s :: setBackTrue rest

/-- `supportsModel` (lines 311-439): deserialize, run a trial `parse` on the
importer's own context, extract the failing node / failing input name from
the accumulated errors, topologically sort, and partition the order into
contiguous supported segments. Returns the mutated importer state, the
subgraph collection and the overall-supported flag. -/
def supportsModel (opImporters : List (String × Converter)) (o : Oracles) (mi : MIState)
    (serialized_onnx_model : ModelProto) (sub_graph_collection : SubGraphCollection) :
    MIState × SubGraphCollection × Bool :=
  let d := deserialize_onnx_model serialized_onnx_model
  if d.1.is_error then
    ({ mi with errors := mi.errors ++ [d.1] }, sub_graph_collection, false)
  else
    let model := d.2
    let pr := parse opImporters o mi serialized_onnx_model
    let mi2 := pr.1
    let en := analysisFailureInfo pr.2 mi2.errors
    match toposort model.graph.node with
    | none => (mi2, sub_graph_collection, false)
    | some topological_order =>
      let dec := supportedNodeDecision opImporters mi2.ctx en.1 en.2 model.graph.node
      let ps := topological_order.foldl (partitionStep dec)
        { coll := sub_graph_collection, newSubGraph := true, allSupported := pr.2 }
      if ps.allSupported then (mi2, setBackTrue ps.coll, true)
      else (mi2, ps.coll, ps.allSupported)

/-!
Concrete instantiations of the external parameters, used to run the
embedding on the specification's scenarios: a converter that succeeds and
produces one ordinary FLOAT tensor per declared output, a converter that
produces an INT32 shape tensor per declared output, and a converter that
always fails (the behaviour of `FallbackPluginImporter` on an operator with
no matching plugin).
-/

/-- A successful converter: adds one layer whose outputs are fresh non-shape
FLOAT tensors named after the node's declared outputs. -/
def knownConv : Converter := fun ctx node _inputs =>
  let r := node.output.foldl
    (fun (acc : Network × List Nat) oname =>
      let p := addTensor acc.1 { name := oname, dtype := DataType.kFLOAT, dims := [(-1 : Int)] }
      (p.1, acc.2 ++ [p.2]))
    (ctx.network, [])
  let nw := { r.1 with layers := r.1.layers ++ [{ name := node.name, outputs := r.2 }] }
  ({ ctx with network := nw }, Except.ok (r.2.map TensorOrWeights.tensor))

/-- A successful converter producing INT32 shape tensors. -/
def shapeConv : Converter := fun ctx node _inputs =>
  let r := node.output.foldl
    (fun (acc : Network × List Nat) oname =>
      let p := addTensor acc.1
        { name := oname, dtype := DataType.kINT32, dims := [(1 : Int)], isShapeTensor := true }
      (p.1, acc.2 ++ [p.2]))
    (ctx.network, [])
  let nw := { r.1 with layers := r.1.layers ++ [{ name := node.name, outputs := r.2 }] }
  ({ ctx with network := nw }, Except.ok (r.2.map TensorOrWeights.tensor))

/-- A converter that always fails with kUNSUPPORTED_NODE (the behaviour of
the plugin fallback when no plugin matches the operator type). -/
def failConv : Converter := fun ctx _node _inputs =>
  (ctx, Except.error { code := ErrorCode.kUNSUPPORTED_NODE })

/-- Oracles under which no tensor is a shape tensor. -/
def noShapeOracles : Oracles := { isShapeO := fun _ => false, sstO := fun _ => true }

/-- Oracles under which exactly the network input named "s" is a shape
tensor. -/
def shapeInOracles : Oracles := { isShapeO := fun n => n == "s", sstO := fun _ => true }

/-- Oracles under which no network input is a shape tensor and no layer kind
supports shape-tensor outputs. -/
def flagOracles : Oracles := { isShapeO := fun _ => false, sstO := fun _ => false }

/-- A converter registry with one ordinary operator and the fallback. -/
def opsKF : List (String × Converter) :=
  [("Known", knownConv), ("FallbackPluginImporter", failConv)]

/-- A converter registry with an ordinary operator, a shape-tensor producing
operator, and the fallback. -/
def opsShape : List (String × Converter) :=
  [("Known", knownConv), ("ShapeOp", shapeConv), ("FallbackPluginImporter", failConv)]

/-- A fresh importer. -/
def freshMI : MIState := { }

/-- FLOAT value info of rank 1. -/
def vinfo (n : String) : ValueInfo := { name := n, vDtype := some DataType.kFLOAT, vDims := [1] }

/-- The spec's scenario graph: A(Known, inputs x and y, output z) →
B(Unregistered, z → w) → C(Known, w → v). -/
def modelABC : ModelProto :=
  { graph :=
    { node :=
      [ { name := "A", opType := "Known", input := ["x", "y"], output := ["z"] }
      , { name := "B", opType := "Unregistered", input := ["z"], output := ["w"] }
      , { name := "C", opType := "Known", input := ["w"], output := ["v"] } ]
    , input := [vinfo "x", vinfo "y"]
    , output := [vinfo "v"] } }

/-- A fully supported one-node model. -/
def modelOK : ModelProto :=
  { graph :=
    { node := [ { name := "D", opType := "Known", input := ["x"], output := ["y"] } ]
    , input := [vinfo "x"]
    , output := [vinfo "y"] } }

/-- A one-node model whose single input "s" is a FLOAT shape tensor under
`shapeInOracles`. -/
def modelShapeIn : ModelProto :=
  { graph :=
    { node := [ { name := "E", opType := "Known", input := ["s"], output := ["y"] } ]
    , input := [vinfo "s"]
    , output := [vinfo "y"] } }

/-- A model in which node "B" produces an INT32 shape tensor "w" through a
layer kind that does not support shape-tensor outputs (under `flagOracles`),
and node "C" consumes that flagged tensor. -/
def modelWFlag : ModelProto :=
  { graph :=
    { node :=
      [ { name := "B", opType := "ShapeOp", input := ["x"], output := ["w"] }
      , { name := "C", opType := "Known", input := ["w"], output := ["v"] } ]
    , input := [vinfo "x"]
    , output := [vinfo "v"] } }

/-- Like `modelWFlag` but the producing node is itself named "w", i.e. its
name coincides with the flagged output tensor name. -/
def modelWFlag2 : ModelProto :=
  { graph :=
    { node :=
      [ { name := "w", opType := "ShapeOp", input := ["x"], output := ["w"] }
      , { name := "C", opType := "Known", input := ["w"], output := ["v"] } ]
    , input := [vinfo "x"]
    , output := [vinfo "v"] } }

/-- A context whose declared output "o" is bound to an INT32 tensor that is
not a network input. -/
def ctxInt32Out : ImporterState :=
  { tensors := [("o", TensorOrWeights.tensor 0)]
  , network := { store := [(0, { name := "t", dtype := DataType.kINT32 })], nextTid := 1 } }

/-- A context whose declared output "o" is bound to a FLOAT tensor that is
not a network input. -/
def ctxFloatOut : ImporterState :=
  { tensors := [("o", TensorOrWeights.tensor 0)]
  , network := { store := [(0, { name := "t", dtype := DataType.kFLOAT })], nextTid := 1 } }

/-- A context whose declared output "o" resolves to the network input tensor
itself (illegal aliasing scenario). -/
def ctxAliased : ImporterState :=
  { tensors := [("o", TensorOrWeights.tensor 0)]
  , network :=
    { store := [(0, { name := "o", dtype := DataType.kFLOAT, dims := [(-1 : Int)] })]
    , nextTid := 1, inputs := [0] } }

/-- A declared FLOAT graph output named "o". -/
def outO : ValueInfo := { name := "o", vDtype := some DataType.kFLOAT }

/-!
Helper lemmas about the association-list, store and partition primitives.
-/

theorem lookupAssoc_insertAssoc_self {α : Type} [DecidableEq α] {β : Type}
    (m : List (α × β)) (k : α) (v : β) : lookupAssoc (insertAssoc m k v) k = some v := by
  induction m with
  | nil => simp [insertAssoc, lookupAssoc]
  | cons hd tl ih =>
    obtain ⟨a, b⟩ := hd
    by_cases h : a = k
    · simp [insertAssoc, lookupAssoc, h]
    · simp [insertAssoc, lookupAssoc, h, ih]

theorem lookupAssoc_insertAssoc_ne {α : Type} [DecidableEq α] {β : Type}
    (m : List (α × β)) (k k2 : α) (v : β) (h : ¬k2 = k) :
    lookupAssoc (insertAssoc m k v) k2 = lookupAssoc m k2 := by
  have hk : ¬k = k2 := fun he => h he.symm
  induction m with
  | nil => simp [insertAssoc, lookupAssoc, hk]
  | cons hd tl ih =>
    obtain ⟨a, b⟩ := hd
    by_cases ha : a = k
    · subst ha
      simp [insertAssoc, lookupAssoc, hk]
    · simp only [insertAssoc, if_neg ha]
      by_cases ha2 : a = k2
      · simp [lookupAssoc, ha2]
      · simp [lookupAssoc, ha2, ih]

@[simp] theorem updTensor_inputs (nw : Network) (tid : Nat) (f : TrtTensorData → TrtTensorData) :
    (updTensor nw tid f).inputs = nw.inputs := rfl

@[simp] theorem updTensor_outputs (nw : Network) (tid : Nat) (f : TrtTensorData → TrtTensorData) :
    (updTensor nw tid f).outputs = nw.outputs := rfl

@[simp] theorem updTensor_layers (nw : Network) (tid : Nat) (f : TrtTensorData → TrtTensorData) :
    (updTensor nw tid f).layers = nw.layers := rfl

@[simp] theorem updTensor_nextTid (nw : Network) (tid : Nat) (f : TrtTensorData → TrtTensorData) :
    (updTensor nw tid f).nextTid = nw.nextTid := rfl

@[simp] theorem getTensorD_updTensor_self (nw : Network) (tid : Nat)
    (f : TrtTensorData → TrtTensorData) :
    getTensorD (updTensor nw tid f) tid = f (getTensorD nw tid) := by
  simp [getTensorD, updTensor, lookupAssoc_insertAssoc_self]

theorem getTensorD_updTensor_ne (nw : Network) (tid tid2 : Nat)
    (f : TrtTensorData → TrtTensorData) (h : ¬tid2 = tid) :
    getTensorD (updTensor nw tid f) tid2 = getTensorD nw tid2 := by
  simp [getTensorD, updTensor, lookupAssoc_insertAssoc_ne _ _ _ _ h]

@[simp] theorem getTensorD_set_outputs (nw : Network) (outs : List Nat) (tid : Nat) :
    getTensorD { nw with outputs := outs } tid = getTensorD nw tid := rfl

@[simp] theorem getTensorD_set_inputs (nw : Network) (ins : List Nat) (tid : Nat) :
    getTensorD { nw with inputs := ins } tid = getTensorD nw tid := rfl

@[simp] theorem getTensorD_set_layers (nw : Network) (ls : List Layer) (tid : Nat) :
    getTensorD { nw with layers := ls } tid = getTensorD nw tid := rfl

theorem toposortAux_mem (nodes : List Node) (allOuts : List String) :
    ∀ (fuel : Nat) (remaining : List Nat) (produced : List String) (acc order : List Nat),
    toposortAux nodes allOuts fuel remaining produced acc = some order →
    ∀ j, j ∈ order ↔ (j ∈ acc ∨ j ∈ remaining) := by
  intro fuel
  induction fuel with
  | zero =>
    intro remaining produced acc order h j
    simp only [toposortAux] at h
    by_cases hr : remaining.isEmpty
    · rw [if_pos hr] at h
      cases h
      rw [List.isEmpty_iff] at hr
      subst hr
      simp
    · rw [if_neg hr] at h
      cases h
  | succ n ih =>
    intro remaining produced acc order h j
    simp only [toposortAux] at h
    cases hf : remaining.find? (fun i => nodeReady produced allOuts (nodes.getD i { })) with
    | none =>
      rw [hf] at h
      by_cases hr : remaining.isEmpty
      · rw [if_pos hr] at h
        cases h
        rw [List.isEmpty_iff] at hr
        subst hr
        simp
      · rw [if_neg hr] at h
        cases h
    | some i =>
      rw [hf] at h
      have hi : i ∈ remaining := List.mem_of_find?_eq_some hf
      have := ih (remaining.erase i) (produced ++ (nodes.getD i { }).output) (i :: acc) order h j
      rw [this]
      constructor
      · rintro (hja | hje)
        · rcases List.mem_cons.mp hja with hji | hja2
          · exact Or.inr (hji ▸ hi)
          · exact Or.inl hja2
        · exact Or.inr (List.mem_of_mem_erase hje)
      · rintro (hja | hjr)
        · exact Or.inl (List.mem_cons_of_mem _ hja)
        · by_cases hji : j = i
          · exact Or.inl (hji ▸ List.mem_cons_self _ _)
          · exact Or.inr ((List.mem_erase_of_ne hji).mpr hjr)

theorem toposort_mem (nodes : List Node) (order : List Nat)
    (h : toposort nodes = some order) : ∀ j, j ∈ order ↔ j < nodes.length := by
  intro j
  have := toposortAux_mem nodes (allNodeOutputs nodes) nodes.length
    (List.range nodes.length) [] [] order h j
  rw [this]
  simp [List.mem_range]

theorem appendToLast_flags (coll : SubGraphCollection) (i : Nat)
    (h : ∀ s ∈ coll, s.2 = false) : ∀ s ∈ appendToLast coll i, s.2 = false := by
  induction coll with
  | nil => simp [appendToLast]
  | cons hd tl ih =>
    cases tl with
    | nil =>
      obtain ⟨l, b⟩ := hd
      intro s hs
      simp only [appendToLast, List.mem_singleton] at hs
      subst hs
      exact h (l, b) (by simp)
    | cons hd2 tl2 =>
      intro s hs
      rw [show appendToLast (hd :: hd2 :: tl2) i = hd :: appendToLast (hd2 :: tl2) i from rfl]
        at hs
      rcases List.mem_cons.mp hs with hhd | htl
      · exact hhd ▸ h hd (by simp)
      · exact ih (fun s hs => h s (List.mem_cons_of_mem _ hs)) s htl

theorem appendToLast_mem (coll : SubGraphCollection) (i : Nat) (s : List Nat × Bool) (j : Nat)
    (hs : s ∈ appendToLast coll i) (hj : j ∈ s.1) :
    (∃ s0 ∈ coll, j ∈ s0.1) ∨ j = i := by
  induction coll with
  | nil => simp [appendToLast] at hs
  | cons hd tl ih =>
    cases tl with
    | nil =>
      obtain ⟨l, b⟩ := hd
      simp only [appendToLast, List.mem_singleton] at hs
      subst hs
      simp only at hj
      rcases List.mem_append.mp hj with hl | hi
      · exact Or.inl ⟨(l, b), by simp, hl⟩
      · exact Or.inr (List.mem_singleton.mp hi)
    | cons hd2 tl2 =>
      rw [show appendToLast (hd :: hd2 :: tl2) i = hd :: appendToLast (hd2 :: tl2) i from rfl]
        at hs
      rcases List.mem_cons.mp hs with hhd | htl
      · exact Or.inl ⟨hd, by simp, hhd ▸ hj⟩
      · rcases ih htl with ⟨s0, hs0, hjs0⟩ | hji
        · exact Or.inl ⟨s0, List.mem_cons_of_mem _ hs0, hjs0⟩
        · exact Or.inr hji

theorem setBackTrue_mem (coll : SubGraphCollection) (s : List Nat × Bool)
    (hs : s ∈ setBackTrue coll) : ∃ s0 ∈ coll, s.1 = s0.1 := by
  induction coll with
  | nil => simp [setBackTrue] at hs
  | cons hd tl ih =>
    cases tl with
    | nil =>
      obtain ⟨l, b⟩ := hd
      simp only [setBackTrue, List.mem_singleton] at hs
      subst hs
      exact ⟨(l, b), by simp, rfl⟩
    | cons hd2 tl2 =>
      rw [show setBackTrue (hd :: hd2 :: tl2) = hd :: setBackTrue (hd2 :: tl2) from rfl] at hs
      rcases List.mem_cons.mp hs with hhd | htl
      · exact ⟨hd, by simp, hhd ▸ rfl⟩
      · rcases ih htl with ⟨s0, hs0, heq⟩
        exact ⟨s0, List.mem_cons_of_mem _ hs0, heq⟩

theorem partition_flags (dec : Nat → Bool) :
    ∀ (order : List Nat) (ps : PartState), (∀ s ∈ ps.coll, s.2 = false) →
    ∀ s ∈ (order.foldl (partitionStep dec) ps).coll, s.2 = false := by
  intro order
  induction order with
  | nil => intro ps h; simpa using h
  | cons i rest ih =>
    intro ps h
    rw [List.foldl_cons]
    apply ih
    unfold partitionStep
    by_cases hdec : dec i
    · rw [if_pos hdec]
      apply appendToLast_flags
      by_cases hns : ps.newSubGraph
      · rw [if_pos hns]
        intro s hs
        rcases List.mem_append.mp hs with hcoll | hnew
        · exact h s hcoll
        · simpa using (List.mem_singleton.mp hnew) ▸ rfl
      · rw [if_neg hns]; exact h
    · rw [if_neg hdec]; exact h

theorem partition_false_stable (dec : Nat → Bool) :
    ∀ (order : List Nat) (ps : PartState), ps.allSupported = false →
    (order.foldl (partitionStep dec) ps).allSupported = false := by
  intro order
  induction order with
  | nil => intro ps h; simpa using h
  | cons i rest ih =>
    intro ps h
    rw [List.foldl_cons]
    apply ih
    unfold partitionStep
    by_cases hdec : dec i
    · rw [if_pos hdec]; exact h
    · rw [if_neg hdec]

theorem partition_unsupported (dec : Nat → Bool) :
    ∀ (order : List Nat) (ps : PartState), (∃ i ∈ order, dec i = false) →
    (order.foldl (partitionStep dec) ps).allSupported = false := by
  intro order
  induction order with
  | nil => rintro ps ⟨i, hi, _⟩; simp at hi
  | cons a rest ih =>
    rintro ps ⟨i, hi, hdec⟩
    rw [List.foldl_cons]
    rcases List.mem_cons.mp hi with hia | hirest
    · subst hia
      apply partition_false_stable
      unfold partitionStep
      rw [hdec]
      simp
    · exact ih _ ⟨i, hirest, hdec⟩

theorem partition_mem (dec : Nat → Bool) :
    ∀ (order : List Nat) (ps : PartState) (s : List Nat × Bool) (j : Nat),
    s ∈ (order.foldl (partitionStep dec) ps).coll → j ∈ s.1 →
    (∃ s0 ∈ ps.coll, j ∈ s0.1) ∨ dec j = true := by
  intro order
  induction order with
  | nil => intro ps s j hs hj; exact Or.inl ⟨s, by simpa using hs, hj⟩
  | cons i rest ih =>
    intro ps s j hs hj
    rw [List.foldl_cons] at hs
    rcases ih _ s j hs hj with ⟨s0, hs0, hjs0⟩ | hdec
    · unfold partitionStep at hs0
      by_cases hdec : dec i
      · rw [if_pos hdec] at hs0
        simp only at hs0
        rcases appendToLast_mem _ _ s0 j hs0 hjs0 with ⟨s1, hs1, hjs1⟩ | hji
        · by_cases hns : ps.newSubGraph
          · rw [if_pos hns] at hs1
            rcases List.mem_append.mp hs1 with hcoll | hnew
            · exact Or.inl ⟨s1, hcoll, hjs1⟩
            · rw [List.mem_singleton.mp hnew] at hjs1
              simp at hjs1
          · rw [if_neg hns] at hs1
            exact Or.inl ⟨s1, hs1, hjs1⟩
        · exact Or.inr (hji ▸ hdec)
      · rw [if_neg hdec] at hs0
        exact Or.inl ⟨s0, hs0, hjs0⟩
    · exact Or.inr hdec

theorem partition_append_all (dec : Nat → Bool) :
    ∀ (order : List Nat) (pref : List Nat) (aS : Bool), (∀ i ∈ order, dec i = true) →
    order.foldl (partitionStep dec)
      { coll := [(pref, false)], newSubGraph := false, allSupported := aS }
      = { coll := [(pref ++ order, false)], newSubGraph := false, allSupported := aS } := by
  intro order
  induction order with
  | nil => intro pref aS _; simp
  | cons i rest ih =>
    intro pref aS h
    rw [List.foldl_cons]
    have hstep : partitionStep dec
        { coll := [(pref, false)], newSubGraph := false, allSupported := aS } i
        = { coll := [(pref ++ [i], false)], newSubGraph := false, allSupported := aS } := by
      unfold partitionStep
      rw [if_pos (h i (by simp))]
      rfl
    rw [hstep, ih (pref ++ [i]) aS (fun j hj => h j (List.mem_cons_of_mem _ hj))]
    simp

theorem partition_start_all (dec : Nat → Bool) (order : List Nat) (aS : Bool)
    (h : ∀ i ∈ order, dec i = true) (hne : ¬order = []) :
    order.foldl (partitionStep dec) { coll := [], newSubGraph := true, allSupported := aS }
      = { coll := [(order, false)], newSubGraph := false, allSupported := aS } := by
  cases order with
  | nil => exact absurd rfl hne
  | cons i rest =>
    rw [List.foldl_cons]
    have hstep : partitionStep dec
        { coll := [], newSubGraph := true, allSupported := aS } i
        = { coll := [([i], false)], newSubGraph := false, allSupported := aS } := by
      unfold partitionStep
      rw [if_pos (h i (by simp))]
      rfl
    rw [hstep, partition_append_all dec rest [i] aS (fun j hj => h j (List.mem_cons_of_mem _ hj))]
    simp

/-!
Claim theorems.
-/

/-- C1 (counterexample): on the spec's scenario A(Known) → B(Unregistered) →
C(Known), the claim asserts that the Support Analyzer returns the segment
list [[A]] with node C excluded; on the code the resulting segment list is
not [[A]] (node C, index 2, is in a segment of its own). -/
theorem c1_counterexample :
    ¬((supportsModel opsKF noShapeOracles freshMI modelABC []).2.1 = [([0], false)] ∧
      ∀ seg ∈ (supportsModel opsKF noShapeOracles freshMI modelABC []).2.1, 2 ∉ seg.1) := by
  decide

/-- C1 (amended): on the scenario A(Known) → B(Unregistered) → C(Known) the
Support Analyzer excludes node B (unregistered operator and failing trial
parse at B), but it does **not** exclude node C: the recorded failing-input
exclusion applies only when the trial import failed on a graph-level input
(error node -1), not when it failed on a node. The resulting segments are
[[A], [C]] (both flagged unknown) and overall-supported is false. -/
theorem c1_amended :
    (supportsModel opsKF noShapeOracles freshMI modelABC []).2
      = ([([0], false), ([2], false)], false) := by
  decide

/-- C2 (counterexample): running the Support Analyzer on a fully supported
one-node model mutates the importer's tensor registry: before the call the
registry of a fresh importer is empty, afterwards it holds bindings for the
graph input and the node output. -/
theorem c2_counterexample :
    ¬(supportsModel opsKF noShapeOracles freshMI modelOK []).1.ctx.tensors
      = freshMI.ctx.tensors := by
  decide

/-- C2 (amended): supportsModel performs its trial import directly on the
importer's own context rather than an isolated one: for every model and
importer state, the context (tensor registry, annotation maps, network) after
supportsModel is exactly the context after a real `parse` of the same model
on that importer. -/
theorem c2_amended (opImporters : List (String × Converter)) (o : Oracles) (mi : MIState)
    (model : ModelProto) (coll : SubGraphCollection) :
    (supportsModel opImporters o mi model coll).1.ctx
      = (parse opImporters o mi model).1.ctx := by
  unfold supportsModel
  dsimp only [deserialize_onnx_model]
  split
  · next h => simp [Status.is_error] at h
  · cases htp : toposort model.graph.node with
    | none => rfl
    | some order =>
      dsimp only []
      split <;> rfl

/-- C5: converter dispatch during graph import (lines 131-141) never fails
outright on a missing registry entry: an operator type with an exact match in
the converter registry dispatches to that converter, and one without an exact
match dispatches to the registered "FallbackPluginImporter" entry. -/
theorem c5_dispatch (opImporters : List (String × Converter)) (opType : String)
    (f fb : Converter)
    (hfb : lookupAssoc opImporters "FallbackPluginImporter" = some fb) :
    (lookupAssoc opImporters opType = some f → dispatchImporter opImporters opType = some f) ∧
    (lookupAssoc opImporters opType = none → dispatchImporter opImporters opType = some fb) := by
  constructor
  · intro h
    simp [dispatchImporter, h]
  · intro h
    simp [dispatchImporter, h, hfb]

/-- C5 (witness): in the concrete registry `opsKF`, the registered operator
"Known" dispatches to its own converter and the unregistered operator
"Unregistered" dispatches to the fallback converter. -/
theorem c5_witness :
    dispatchImporter opsKF "Known" = some knownConv ∧
    dispatchImporter opsKF "Unregistered" = some failConv :=
  ⟨(c5_dispatch opsKF "Known" knownConv failConv rfl).1 rfl,
   (c5_dispatch opsKF "Unregistered" knownConv failConv rfl).2 rfl⟩

/-- C10: for a graph input with no user-supplied input tensor and no
per-input dimension override, importInput replaces the declared first
dimension by -1 (dynamic) and keeps the remaining dimensions, before creating
the network input handle. -/
theorem c10_dynamicFirstDim (o : Oracles) (ctx : ImporterState) (input : ValueInfo)
    (dt : DataType)
    (hu : lookupAssoc ctx.userInputs input.name = none)
    (hd : input.vDtype = some dt)
    (hne : ¬input.vDims = []) :
    (importInput o ctx input none).2 = Except.ok ctx.network.nextTid ∧
    (getTensorD (importInput o ctx input none).1.network ctx.network.nextTid).dims
      = (-1 : Int) :: input.vDims.tail := by
  unfold importInput
  rw [hd]
  dsimp only []
  rw [hu]
  unfold addNetworkInput addTensor
  constructor
  · rfl
  · dsimp only [getTensorD]
    rw [lookupAssoc_insertAssoc_self]
    cases hv : input.vDims with
    | nil => exact absurd hv hne
    | cons a t => simp [setFirstDimDynamic]

/-- C10 (witness): a concrete rank-2 input declared with dimensions [4, 3]
and no user input or override produces the network input dimensions
[-1, 3]. -/
theorem c10_witness :
    (importInput noShapeOracles { } { name := "inp", vDtype := some DataType.kFLOAT, vDims := [4, 3] } none).2
      = Except.ok 0 ∧
    (getTensorD (importInput noShapeOracles { }
        { name := "inp", vDtype := some DataType.kFLOAT, vDims := [4, 3] } none).1.network 0).dims
      = [(-1 : Int), 3] :=
  c10_dynamicFirstDim noShapeOracles { }
    { name := "inp", vDtype := some DataType.kFLOAT, vDims := [4, 3] }
    DataType.kFLOAT rfl rfl (by decide)

/-- C9: re-asserting an annotation (generic `setStringMap`, used for
calibration range min/max and layer precision, and `setTensorLocations` for
tensor locations) for a key already present succeeds and leaves the map
unchanged when the new value equals the recorded value, fails with an error
leaving the map (and so the recorded value) unchanged when it differs, and a
key not yet present is simply recorded. -/
theorem c9_annotations {T : Type} [DecidableEq T] (map : List (String × T)) (name : String)
    (v : T) (locMap : List (String × TensorLocation)) (tensor location : String) :
    (lookupAssoc map name = some v → setStringMap [name] [v] map = (map, none)) ∧
    (∀ w, lookupAssoc map name = some w → ¬w = v →
      setStringMap [name] [v] map = (map, some { code := ErrorCode.kINVALID_GRAPH })) ∧
    (lookupAssoc map name = none → setStringMap [name] [v] map = (insertAssoc map name v, none)) ∧
    (lookupAssoc locMap tensor = some (locationOf location) →
      setTensorLocations [tensor] [location] locMap = (locMap, none)) ∧
    (∀ w, lookupAssoc locMap tensor = some w → ¬w = locationOf location →
      setTensorLocations [tensor] [location] locMap
        = (locMap, some { code := ErrorCode.kINVALID_GRAPH })) ∧
    (lookupAssoc locMap tensor = none →
      setTensorLocations [tensor] [location] locMap
        = (insertAssoc locMap tensor (locationOf location), none)) := by
  refine ⟨?_, ?_, ?_, ?_, ?_, ?_⟩
  · intro h
    simp [setStringMap, setStringMapLoop, h]
  · intro w hw hne
    have : ¬w = v := hne
    simp [setStringMap, setStringMapLoop, hw, this]
  · intro h
    simp [setStringMap, setStringMapLoop, h]
  · intro h
    simp [setTensorLocations, setTensorLocationsLoop, h]
  · intro w hw hne
    simp [setTensorLocations, setTensorLocationsLoop, hw, hne]
  · intro h
    simp [setTensorLocations, setTensorLocationsLoop, h]

/-- C9 (witness): concrete calibration-range re-assertions — identical value
succeeds leaving the map unchanged, a different value fails, a fresh key is
recorded; and the same for a tensor location. -/
theorem c9_witness :
    setStringMap ["t"] [(3 : Int)] [("t", (3 : Int))] = ([("t", (3 : Int))], none) ∧
    setStringMap ["t"] [(4 : Int)] [("t", (3 : Int))]
      = ([("t", (3 : Int))], some { code := ErrorCode.kINVALID_GRAPH }) ∧
    setStringMap ["u"] [(5 : Int)] [("t", (3 : Int))]
      = (insertAssoc [("t", (3 : Int))] "u" (5 : Int), none) ∧
    setTensorLocations ["t"] ["host"] [("t", TensorLocation.kDEVICE)]
      = ([("t", TensorLocation.kDEVICE)], some { code := ErrorCode.kINVALID_GRAPH }) :=
  ⟨(c9_annotations [("t", (3 : Int))] "t" 3 [] "" "").1 rfl,
   (c9_annotations [("t", (3 : Int))] "t" 4 [] "" "").2.1 3 rfl (by decide),
   (c9_annotations [("t", (3 : Int))] "u" 5 [] "" "").2.2.1 rfl,
   (c9_annotations ([] : List (String × Int)) "" 0
      [("t", TensorLocation.kDEVICE)] "t" "host").2.2.2.2.1
     TensorLocation.kDEVICE rfl (by decide)⟩

/-- C6: node input assembly resolves every input from the tensor registry in
declared order; an empty input name yields the explicit null placeholder at
its position without a lookup, and when every non-empty name is bound the
assembly succeeds with exactly one resolved value per declared input; a
non-empty input name not bound in the registry makes the node's import fail
with the kINVALID_GRAPH error. -/
theorem c6_resolveInputs (tensors : List (String × TensorOrWeights)) (names : List String) :
    ((∀ n ∈ names, ¬n = "" → (lookupAssoc tensors n).isSome = true) →
      ∃ vals, resolveNodeInputs tensors names = Except.ok vals ∧
        vals.length = names.length ∧
        ∀ k, k < names.length →
          vals.getD k TensorOrWeights.null =
            (if names.getD k "" = "" then TensorOrWeights.null
             else (lookupAssoc tensors (names.getD k "")).getD TensorOrWeights.null)) ∧
    ((∃ n ∈ names, ¬n = "" ∧ lookupAssoc tensors n = none) →
      resolveNodeInputs tensors names = Except.error { code := ErrorCode.kINVALID_GRAPH }) := by
  induction names with
  | nil =>
    constructor
    · intro _
      refine ⟨[], rfl, rfl, ?_⟩
      intro k hk
      simp at hk
    · rintro ⟨n, hn, _⟩
      simp at hn
  | cons n rest ih =>
    constructor
    · intro h
      obtain ⟨vals, hok, hlen, hidx⟩ :=
        ih.1 (fun m hm hme => h m (List.mem_cons_of_mem _ hm) hme)
      by_cases hn : n = ""
      · refine ⟨TensorOrWeights.null :: vals, ?_, by simpa using hlen, ?_⟩
        · simp [resolveNodeInputs, hn, hok, Except.map]
        · intro k hk
          cases k with
          | zero => simp [hn]
          | succ k2 =>
            have hk2 : k2 < rest.length := by simpa using hk
            simpa using hidx k2 hk2
      · have hsome := h n (by simp) hn
        obtain ⟨v, hv⟩ := Option.isSome_iff_exists.mp hsome
        refine ⟨v :: vals, ?_, by simpa using hlen, ?_⟩
        · simp [resolveNodeInputs, hn, hv, hok, Except.map]
        · intro k hk
          cases k with
          | zero => simp [hn, hv]
          | succ k2 =>
            have hk2 : k2 < rest.length := by simpa using hk
            simpa using hidx k2 hk2
    · rintro ⟨m, hm, hme, hmnone⟩
      rcases List.mem_cons.mp hm with hmn | hmrest
      · subst hmn
        simp [resolveNodeInputs, hme, hmnone]
      · have herr := ih.2 ⟨m, hmrest, hme, hmnone⟩
        by_cases hn : n = ""
        · simp [resolveNodeInputs, hn, herr, Except.map]
        · cases hv : lookupAssoc tensors n with
          | none => simp [resolveNodeInputs, hn, hv]
          | some v => simp [resolveNodeInputs, hn, hv, herr, Except.map]

/-- C6 (witness): with registry binding "a", the input list ["a", "", "a"]
resolves to the bound tensor, the null placeholder, and the bound tensor in
declared order; the input list ["b"] fails with kINVALID_GRAPH. -/
theorem c6_witness :
    (∃ vals, resolveNodeInputs [("a", TensorOrWeights.tensor 0)] ["a", "", "a"]
        = Except.ok vals ∧
      vals.length = (["a", "", "a"] : List String).length ∧
      ∀ k, k < (["a", "", "a"] : List String).length →
        vals.getD k TensorOrWeights.null =
          (if (["a", "", "a"] : List String).getD k "" = "" then TensorOrWeights.null
           else (lookupAssoc [("a", TensorOrWeights.tensor 0)]
              ((["a", "", "a"] : List String).getD k "")).getD TensorOrWeights.null)) ∧
    resolveNodeInputs [("a", TensorOrWeights.tensor 0)] ["b"]
      = Except.error { code := ErrorCode.kINVALID_GRAPH } :=
  ⟨(c6_resolveInputs [("a", TensorOrWeights.tensor 0)] ["a", "", "a"]).1 (by decide),
   (c6_resolveInputs [("a", TensorOrWeights.tensor 0)] ["b"]).2
     ⟨"b", by decide, by decide, by decide⟩⟩

/-- C7: at output finalization, for a declared graph output resolved to a
tensor that is not a network input and not user-requested, the declared
element type is applied to the produced tensor, except that an INT32-typed
produced tensor whose declared type is not INT32 makes the import fail with
kUNSUPPORTED_NODE instead of being silently retyped. -/
theorem c7_outputType (ctx : ImporterState) (output : ValueInfo) (tid : Nat) (d : DataType)
    (hb : lookupAssoc ctx.tensors output.name = some (TensorOrWeights.tensor tid))
    (hni : ctx.network.inputs.contains tid = false)
    (huo : ctx.userOutputs.contains output.name = false)
    (hd : output.vDtype = some d) :
    ((getTensorD ctx.network tid).dtype = DataType.kINT32 ∧ ¬d = DataType.kINT32 →
      (markDeclaredOutput ctx output).2 = some { code := ErrorCode.kUNSUPPORTED_NODE }) ∧
    (¬((getTensorD ctx.network tid).dtype = DataType.kINT32 ∧ ¬d = DataType.kINT32) →
      (markDeclaredOutput ctx output).2 = none ∧
      (getTensorD (markDeclaredOutput ctx output).1.network tid).dtype = d) := by
  have hred : markDeclaredOutput ctx output =
      (let nw1 : Network :=
        { setTensorName ctx.network tid output.name with outputs := ctx.network.outputs ++ [tid] }
      if (getTensorD ctx.network tid).dtype = DataType.kINT32 ∧ ¬d = DataType.kINT32 then
        ({ ctx with network := nw1 }, some { code := ErrorCode.kUNSUPPORTED_NODE })
      else
        ({ ctx with network := setTensorType nw1 tid d }, none)) := by
    unfold markDeclaredOutput
    rw [hb]
    simp only [convertToTensor, setTensorName, updTensor_inputs, hni, Bool.false_eq_true,
      if_false, huo]
    rw [hd]
    simp only [setTensorName, updTensor, getTensorD, lookupAssoc_insertAssoc_self,
      Option.getD_some]
  by_cases hcond : (getTensorD ctx.network tid).dtype = DataType.kINT32 ∧ ¬d = DataType.kINT32
  · rw [if_pos hcond] at hred
    exact ⟨fun _ => by rw [hred], fun habs => absurd hcond habs⟩
  · rw [if_neg hcond] at hred
    refine ⟨fun hc => absurd hc hcond, fun _ => ⟨by rw [hred], ?_⟩⟩
    rw [hred]
    simp only [setTensorType, setTensorName, updTensor, getTensorD,
      lookupAssoc_insertAssoc_self, Option.getD_some]

/-- C7 (witness): an INT32-typed produced output declared FLOAT is rejected
with kUNSUPPORTED_NODE; a FLOAT-typed produced output declared FLOAT succeeds
and carries the declared type. -/
theorem c7_witness :
    (markDeclaredOutput ctxInt32Out outO).2 = some { code := ErrorCode.kUNSUPPORTED_NODE } ∧
    ((markDeclaredOutput ctxFloatOut outO).2 = none ∧
      (getTensorD (markDeclaredOutput ctxFloatOut outO).1.network 0).dtype = DataType.kFLOAT) :=
  ⟨(c7_outputType ctxInt32Out outO 0 DataType.kFLOAT rfl rfl rfl rfl).1 (by decide),
   (c7_outputType ctxFloatOut outO 0 DataType.kFLOAT rfl rfl rfl rfl).2 (by decide)⟩

/-- C8: when a declared graph output resolves to a tensor that is a network
input, importModel synthesizes a pass-through identity copy: the original
input tensor is renamed to "__" prefixed to the output name, the fresh copy
carries the declared output name, the copy (not the input tensor) is appended
to the network outputs, and an identity layer from the input tensor to the
copy is added. -/
theorem c8_aliasedOutput (ctx : ImporterState) (output : ValueInfo) (tid : Nat) (d : DataType)
    (hb : lookupAssoc ctx.tensors output.name = some (TensorOrWeights.tensor tid))
    (hin : ctx.network.inputs.contains tid = true)
    (huo : ctx.userOutputs.contains output.name = false)
    (hd : output.vDtype = some d)
    (htype : ¬((getTensorD ctx.network tid).dtype = DataType.kINT32 ∧ ¬d = DataType.kINT32))
    (hfresh : ¬ctx.network.nextTid = tid)
    (hto : tid ∉ ctx.network.outputs) :
    (markDeclaredOutput ctx output).2 = none ∧
    (getTensorD (markDeclaredOutput ctx output).1.network tid).name
      = String.append "__" output.name ∧
    (getTensorD (markDeclaredOutput ctx output).1.network ctx.network.nextTid).name
      = output.name ∧
    (markDeclaredOutput ctx output).1.network.outputs
      = ctx.network.outputs ++ [ctx.network.nextTid] ∧
    tid ∉ (markDeclaredOutput ctx output).1.network.outputs ∧
    ∃ l ∈ (markDeclaredOutput ctx output).1.network.layers,
      l.inputs = [tid] ∧ l.outputs = [ctx.network.nextTid] := by
  have hxne : ∀ (m : List (Nat × TrtTensorData)) (v : TrtTensorData),
      lookupAssoc (insertAssoc m tid v) ctx.network.nextTid
        = lookupAssoc m ctx.network.nextTid :=
    fun m v => lookupAssoc_insertAssoc_ne m tid ctx.network.nextTid v hfresh
  have hyne : ∀ (m : List (Nat × TrtTensorData)) (v : TrtTensorData),
      lookupAssoc (insertAssoc m ctx.network.nextTid v) tid = lookupAssoc m tid :=
    fun m v =>
      lookupAssoc_insertAssoc_ne m ctx.network.nextTid tid v (fun he => hfresh he.symm)
  have htype2 :
      ¬(((lookupAssoc ctx.network.store tid).getD { }).dtype = DataType.kINT32 ∧
        ¬d = DataType.kINT32) := by
    simpa [getTensorD] using htype
  unfold markDeclaredOutput
  rw [hb]
  simp only [convertToTensor, setTensorName, setTensorType, identityLayer, addTensor,
    updTensor, updTensor_inputs, hin, if_true, huo, Bool.false_eq_true, if_false,
    getTensorD, lookupAssoc_insertAssoc_self, hxne, hyne, Option.getD_some, hd, htype2]
  refine ⟨?_, ?_, ?_, ?_, ?_, ?_⟩
  · simp [htype2]
  · simp [htype2, hyne, lookupAssoc_insertAssoc_self]
  · simp [htype2, lookupAssoc_insertAssoc_self]
  · simp [htype2]
  · simp only [htype2, false_and, if_false, List.mem_append, List.mem_singleton]
    rintro (habs | habs)
    · exact hto habs
    · exact hfresh habs.symm
  · exact ⟨{ name := "identity", inputs := [tid], outputs := [ctx.network.nextTid] },
      List.mem_append_right _ (List.mem_singleton_self _), rfl, rfl⟩

/-- C8 (witness): in a concrete context whose declared output "o" resolves to
the network input tensor 0, finalization renames the input to "__o", creates
the copy tensor 1 named "o", marks only the copy as the network output, and
adds the identity layer 0 → 1. -/
theorem c8_witness :
    (markDeclaredOutput ctxAliased outO).2 = none ∧
    (getTensorD (markDeclaredOutput ctxAliased outO).1.network 0).name
      = String.append "__" "o" ∧
    (getTensorD (markDeclaredOutput ctxAliased outO).1.network 1).name = "o" ∧
    (markDeclaredOutput ctxAliased outO).1.network.outputs = [] ++ [1] ∧
    (0 : Nat) ∉ (markDeclaredOutput ctxAliased outO).1.network.outputs ∧
    ∃ l ∈ (markDeclaredOutput ctxAliased outO).1.network.layers,
      l.inputs = [0] ∧ l.outputs = [1] :=
  c8_aliasedOutput ctxAliased outO 0 DataType.kFLOAT rfl rfl rfl rfl
    (by decide) (by decide) (by decide)

/-- Support decision when the node's NAME is recorded in
unsupportedShapeTensors: the node is excluded (lines 410-412 test the node
name, not the node's inputs, against the recorded tensor names). -/
theorem supportedNodeDecision_flagged (opImporters : List (String × Converter))
    (ctx : ImporterState) (error_node : Int) (input_node : String) (nodes : List Node)
    (i : Nat)
    (h : (ctx.unsupportedShapeTensors).contains ((nodes.getD i { }).name) = true) :
    supportedNodeDecision opImporters ctx error_node input_node nodes i = false := by
  simp only [supportedNodeDecision]
  rw [h]
  simp

/-- C4 (counterexample): in a model whose trial import records tensor "w"
(the output of a shape-tensor producing layer kind that does not support
shape tensors) in unsupportedShapeTensors, the node C (index 1) that
**consumes** the flagged output "w" is nevertheless placed in a segment —
the analysis result is the single segment [0, 1] marked fully supported —
so the claim that every consumer of a flagged output is excluded from every
segment is false. -/
theorem c4_counterexample :
    ((supportsModel opsShape flagOracles freshMI modelWFlag []).1.ctx.unsupportedShapeTensors).contains
        ((modelWFlag.graph.node.getD 1 { }).input.getD 0 "") = true ∧
    (supportsModel opsShape flagOracles freshMI modelWFlag []).2
      = ([([0, 1], true)], true) := by
  decide

/-- C4 (amended): the Support Analyzer's shape-tensor-output exclusion
applies to the node whose NAME is in the recorded illegal shape-tensor
output set (the set holds output tensor names, so this excludes a producing
node exactly when its name coincides with its flagged output's name);
consuming a flagged output does not by itself exclude a node. Every node
whose name is in the set after the trial parse appears in no segment. -/
theorem c4_amended (opImporters : List (String × Converter)) (o : Oracles) (mi : MIState)
    (model : ModelProto) (i : Nat)
    (hflag : ((parse opImporters o mi model).1.ctx.unsupportedShapeTensors).contains
        ((model.graph.node.getD i { }).name) = true) :
    ∀ seg ∈ (supportsModel opImporters o mi model []).2.1, i ∉ seg.1 := by
  intro seg hseg hmem
  have hdec := supportedNodeDecision_flagged opImporters
    (parse opImporters o mi model).1.ctx
    (analysisFailureInfo (parse opImporters o mi model).2
      (parse opImporters o mi model).1.errors).1
    (analysisFailureInfo (parse opImporters o mi model).2
      (parse opImporters o mi model).1.errors).2
    model.graph.node i hflag
  unfold supportsModel at hseg
  dsimp only [deserialize_onnx_model] at hseg
  split at hseg
  · next h => simp [Status.is_error] at h
  · split at hseg
    · simp at hseg
    · next order htp =>
      split at hseg
      · obtain ⟨s0, hs0, heq⟩ := setBackTrue_mem _ seg hseg
        rcases partition_mem _ order _ s0 i hs0 (heq ▸ hmem) with ⟨s1, hs1, _⟩ | hdec2
        · simp at hs1
        · rw [hdec] at hdec2
          cases hdec2
      · rcases partition_mem _ order _ seg i hseg hmem with ⟨s1, hs1, _⟩ | hdec2
        · simp at hs1
        · rw [hdec] at hdec2
          cases hdec2

/-- C4 (witness): in the model whose producing node is itself named "w"
(matching its flagged output tensor name), that node, index 0, is not in the
first (and only) segment of the analysis result. -/
theorem c4_witness :
    0 ∉ ((supportsModel opsShape flagOracles freshMI modelWFlag2 []).2.1.getD 0 ([], false)).1 :=
  c4_amended opsShape flagOracles freshMI modelWFlag2 0 (by decide)
    ((supportsModel opsShape flagOracles freshMI modelWFlag2 []).2.1.getD 0 ([], false))
    (by decide)

/-- C3 (counterexample): a one-node model whose operator "Known" is
registered and whose trial parse succeeds (no converter fails), but whose
single network input is a FLOAT shape tensor consumed by the node: the
Support Analyzer excludes the node through the shape-tensor-input check and
returns no segment at all and overall-supported false, not one fully
supported segment with all nodes. -/
theorem c3_counterexample :
    (parse opsKF shapeInOracles freshMI modelShapeIn).2 = true ∧
    supportsOperator opsKF "Known" = true ∧
    (supportsModel opsKF shapeInOracles freshMI modelShapeIn []).2 = ([], false) := by
  decide

/-- C3 (amended): (1) if the trial parse succeeds and every node of the
topological order passes the per-node support decision (operator registered,
no shape-tensor-input exclusion, name not recorded as an illegal shape-tensor
output; with a successful parse there is no failing node and no failing
input), then the Support Analyzer returns exactly one segment consisting of
the whole topological order — which contains every node index — marked fully
supported, and overall-supported true; (2) whenever some node of the order is
excluded by the decision, every produced segment keeps the default false
flag and the overall result is false. -/
theorem c3_amended :
    (∀ (opImporters : List (String × Converter)) (o : Oracles) (mi : MIState)
        (model : ModelProto) (order : List Nat),
      (parse opImporters o mi model).2 = true →
      toposort model.graph.node = some order →
      ¬order = [] →
      (∀ i ∈ order,
        supportedNodeDecision opImporters (parse opImporters o mi model).1.ctx (-1) ""
          model.graph.node i = true) →
      supportsModel opImporters o mi model []
          = ((parse opImporters o mi model).1, [(order, true)], true) ∧
        (∀ j, j ∈ order ↔ j < model.graph.node.length)) ∧
    (∀ (opImporters : List (String × Converter)) (o : Oracles) (mi : MIState)
        (model : ModelProto) (order : List Nat),
      toposort model.graph.node = some order →
      (∃ i ∈ order,
        supportedNodeDecision opImporters (parse opImporters o mi model).1.ctx
          (analysisFailureInfo (parse opImporters o mi model).2
            (parse opImporters o mi model).1.errors).1
          (analysisFailureInfo (parse opImporters o mi model).2
            (parse opImporters o mi model).1.errors).2
          model.graph.node i = false) →
      (∀ seg ∈ (supportsModel opImporters o mi model []).2.1, seg.2 = false) ∧
      (supportsModel opImporters o mi model []).2.2 = false) := by
  constructor
  · intro opImporters o mi model order hparse htopo hne hall
    refine ⟨?_, toposort_mem _ _ htopo⟩
    unfold supportsModel
    dsimp only [deserialize_onnx_model]
    split
    · next h => simp [Status.is_error] at h
    · split
      · next htp2 => rw [htopo] at htp2; cases htp2
      · next order2 htp2 =>
        rw [htopo] at htp2
        injection htp2 with horder
        subst horder
        rw [hparse]
        simp only [analysisFailureInfo, if_true]
        rw [partition_start_all _ order true hall hne]
        simp [setBackTrue]
  · intro opImporters o mi model order htopo hex
    have hfalse := partition_unsupported
      (supportedNodeDecision opImporters (parse opImporters o mi model).1.ctx
        (analysisFailureInfo (parse opImporters o mi model).2
          (parse opImporters o mi model).1.errors).1
        (analysisFailureInfo (parse opImporters o mi model).2
          (parse opImporters o mi model).1.errors).2
        model.graph.node)
      order
      { coll := [], newSubGraph := true, allSupported := (parse opImporters o mi model).2 }
      hex
    have hval : supportsModel opImporters o mi model [] =
        ((parse opImporters o mi model).1,
          (order.foldl (partitionStep
              (supportedNodeDecision opImporters (parse opImporters o mi model).1.ctx
                (analysisFailureInfo (parse opImporters o mi model).2
                  (parse opImporters o mi model).1.errors).1
                (analysisFailureInfo (parse opImporters o mi model).2
                  (parse opImporters o mi model).1.errors).2
                model.graph.node))
            { coll := [], newSubGraph := true,
              allSupported := (parse opImporters o mi model).2 }).coll,
          (order.foldl (partitionStep
              (supportedNodeDecision opImporters (parse opImporters o mi model).1.ctx
                (analysisFailureInfo (parse opImporters o mi model).2
                  (parse opImporters o mi model).1.errors).1
                (analysisFailureInfo (parse opImporters o mi model).2
                  (parse opImporters o mi model).1.errors).2
                model.graph.node))
            { coll := [], newSubGraph := true,
              allSupported := (parse opImporters o mi model).2 }).allSupported) := by
      unfold supportsModel
      dsimp only [deserialize_onnx_model]
      split
      · next h => simp [Status.is_error] at h
      · split
        · next htp2 => rw [htopo] at htp2; cases htp2
        · next order2 htp2 =>
          rw [htopo] at htp2
          injection htp2 with horder
          subst horder
          rw [if_neg (by simp [hfalse])]
    rw [hval]
    exact ⟨partition_flags _ order _ (by simp), hfalse⟩

/-- C3 (witness): part (1) applied to the fully supported one-node model
gives the single segment [0] (covering all node indices) marked supported
with overall result true; part (2) applied to the A → B(Unregistered) → C
scenario gives only false-flagged segments and overall result false. -/
theorem c3_witness :
    (supportsModel opsKF noShapeOracles freshMI modelOK []
        = ((parse opsKF noShapeOracles freshMI modelOK).1, [([0], true)], true) ∧
      (∀ j, j ∈ ([0] : List Nat) ↔ j < modelOK.graph.node.length)) ∧
    ((∀ seg ∈ (supportsModel opsKF noShapeOracles freshMI modelABC []).2.1, seg.2 = false) ∧
      (supportsModel opsKF noShapeOracles freshMI modelABC []).2.2 = false) :=
  ⟨c3_amended.1 opsKF noShapeOracles freshMI modelOK [0] (by decide) (by decide)
      (by decide) (by decide),
   c3_amended.2 opsKF noShapeOracles freshMI modelABC [0, 1, 2] (by decide)
      ⟨1, by decide, by decide⟩⟩

end Onnx2trt
